import Mathlib

/-!
Shallow embedding of the market-terminal backend (src/main.py): SQLite-backed
watchlist persistence, the Angel One broker client wrapper, the deterministic
mock pricer, and the HTTP handler bodies. SQLite behaviour is made explicit:
the `watchlist_stocks` table has only an AUTOINCREMENT primary key and no
UNIQUE constraint on `(watchlist_id, symbol)`, so `INSERT OR IGNORE` on that
table never finds a conflicting constraint and always inserts. Python numeric
values (ints and floats) are modelled as `Int` and `ℚ`; Python `%` on ints
with a positive modulus agrees with `Int.emod`, which is Lean's `%` on `Int`.
Python's per-process string `hash` is modelled as an explicit parameter
`hashF : String → Int` fixed for a run. `str.upper` is modelled by
`String.toUpper` (they agree on ASCII symbols). External collaborators
(the SmartConnect SDK, pyotp) are oracles; an oracle result of `exn` stands
for a raised exception, which the source catches.
-/

namespace MarketTerminal

/-- Row of the `watchlists` table: `id INTEGER PRIMARY KEY AUTOINCREMENT`,
`name TEXT NOT NULL`. `created_at` carries no information the claims need
beyond insertion order, which the list order of `DB.watchlists` encodes. -/
structure WatchlistRow where
  id : Nat
  name : String
deriving DecidableEq, Repr

/-- Row of the `watchlist_stocks` table. The AUTOINCREMENT surrogate `id` and
`added_at` are represented by the position of the row in `DB.stocks`
(insertion order); the table has no other constraint. -/
structure StockRow where
  watchlist_id : Nat
  symbol : String
deriving DecidableEq, Repr

/-- The persistent store: contents of the two tables, rows in insertion
order. -/
structure DB where
  watchlists : List WatchlistRow
  stocks : List StockRow
deriving DecidableEq, Repr

/-- The empty store, as after `CREATE TABLE IF NOT EXISTS` on a fresh file. -/
def DB.empty : DB := ⟨[], []⟩

/-- A quote as returned by `/api/watchlists/{id}/stocks`: the dict built in
`get_watchlist_stocks`. -/
structure Quote where
  symbol : String
  ltp : ℚ
  change : ℚ
  changePercent : ℚ
  volume : Int
  sector : String
deriving DecidableEq, Repr

/-- The dict returned by `AngelOneAPI.get_ltp` on success (its `symbol` key
always echoes the argument, so it is omitted). -/
structure BrokerData where
  ltp : ℚ
  change : ℚ
  changePercent : ℚ
deriving DecidableEq, Repr

/-- Python `str.upper` on one character, for the ASCII range the service's
symbol strings use (agrees with `Char.toUpper`). -/
def upperChar (c : Char) : Char :=
  if c.isLower then Char.ofNat (c.toNat - 32) else c

/-- Python `str.upper`, for the ASCII symbol strings the service handles. -/
def upper (s : String) : String := ⟨s.data.map upperChar⟩

/-- Default stocks seeded into watchlist 1 by `init_db` (src/main.py line 141). -/
def defaultStocks : List String := ["RELIANCE", "TCS", "INFY", "EMS", "BIKAJI"]

/-- SQLite `INSERT OR IGNORE INTO watchlists (id, name) VALUES (?, ?)`:
`id` is the primary key, so the insert is ignored exactly when a row with
that id already exists. -/
def insertOrIgnoreWatchlist (db : DB) (id : Nat) (name : String) : DB :=
  if db.watchlists.any (fun w => w.id == id) then db
  else { db with watchlists := db.watchlists ++ [⟨id, name⟩] }

/-- SQLite `INSERT OR IGNORE INTO watchlist_stocks (watchlist_id, symbol)`:
the table's only constraint is the AUTOINCREMENT primary key, which never
conflicts, so the `OR IGNORE` clause has no effect and the row is always
inserted. -/
def insertStockRow (db : DB) (wid : Nat) (sym : String) : DB :=
  { db with stocks := db.stocks ++ [⟨wid, sym⟩] }

/-- `init_db` (src/main.py lines 113-149): create tables if missing (a no-op
on the model), insert-or-ignore the three default watchlists, then
insert-or-ignore one membership row per default stock into watchlist 1. -/
def initDb (db : DB) : DB :=
  let db1 := insertOrIgnoreWatchlist db 1 "My Portfolio"
  let db2 := insertOrIgnoreWatchlist db1 2 "Growth Stocks"
  let db3 := insertOrIgnoreWatchlist db2 3 "Value Picks"
  defaultStocks.foldl (fun d s => insertStockRow d 1 s) db3

/-- SQLite AUTOINCREMENT id for a new `watchlists` row: one more than the
largest id ever used; watchlists are never deleted, so this is one more than
the largest current id. -/
def nextWatchlistId (db : DB) : Nat :=
  (db.watchlists.foldl (fun m w => max m w.id) 0) + 1

/-- `create_watchlist` (src/main.py lines 181-198): insert the watchlist row,
then insert one membership row per initial symbol, uppercased, with no
duplicate check. Returns `lastrowid` and the new store. -/
def createWatchlist (db : DB) (name : String) (symbols : List String) : Nat × DB :=
  let wid := nextWatchlistId db
  let db1 := { db with watchlists := db.watchlists ++ [⟨wid, name⟩] }
  let db2 := symbols.foldl (fun d s => insertStockRow d wid (upper s)) db1
  (wid, db2)

/-- `SELECT COUNT(*) FROM watchlist_stocks WHERE watchlist_id = ? AND symbol = ?`. -/
def countPair (db : DB) (wid : Nat) (sym : String) : Nat :=
  (db.stocks.filter (fun r => r.watchlist_id == wid && r.symbol == sym)).length

/-- `add_stock` (src/main.py lines 200-222): reject with HTTP 400 when the
`(watchlist_id, upper symbol)` pair is already present, else insert it. -/
def addStock (db : DB) (wid : Nat) (s : String) : Except String DB :=
  if countPair db wid (upper s) > 0 then
    Except.error "Stock already exists in watchlist"
  else
    Except.ok (insertStockRow db wid (upper s))

/-- `remove_stock` (src/main.py lines 224-237): delete every membership row of
the watchlist whose symbol equals the uppercased argument. -/
def removeStock (db : DB) (wid : Nat) (s : String) : DB :=
  { db with stocks :=
      db.stocks.filter (fun r => !(r.watchlist_id == wid && r.symbol == upper s)) }

/-- `SELECT symbol FROM watchlist_stocks WHERE watchlist_id = ? ORDER BY added_at`
(src/main.py lines 244-247): the rows of the watchlist in insertion order. -/
def listSymbols (db : DB) (wid : Nat) : List String :=
  (db.stocks.filter (fun r => r.watchlist_id == wid)).map (fun r => r.symbol)

/-- An entry of the `/api/watchlists` response. -/
structure WatchlistSummary where
  id : Nat
  name : String
  stock_count : Nat
deriving DecidableEq, Repr

/-- Comparison used to model `ORDER BY w.id`. -/
def rowLe (a b : WatchlistRow) : Prop := a.id ≤ b.id

instance : DecidableRel rowLe := fun a b => Nat.decLe a.id b.id

instance : IsTotal WatchlistRow rowLe := ⟨fun a b => Nat.le_total a.id b.id⟩

instance : IsTrans WatchlistRow rowLe := ⟨fun _ _ _ h h' => Nat.le_trans h h'⟩

/-- `get_watchlists` (src/main.py lines 157-179): the `LEFT JOIN ... GROUP BY
w.id, w.name ORDER BY w.id` query. `COUNT(ws.symbol)` counts the matching
membership rows and ignores the NULLs a LEFT JOIN produces for memberless
watchlists, so every watchlist row contributes one entry, with its membership
row count. -/
def getWatchlists (db : DB) : List WatchlistSummary :=
  (db.watchlists.insertionSort rowLe).map
    (fun w => ⟨w.id, w.name, (db.stocks.filter (fun r => r.watchlist_id == w.id)).length⟩)

/-- The mock quote built on the fallback branch of `get_watchlist_stocks`
(src/main.py lines 266-274), as a function of `h = hash(symbol)`:
`ltp = 1000 + h % 2000`, `change = (h % 200) - 100`,
`changePercent = ((h % 200) - 100) / 10` (Python float division, exact here),
`volume = (h % 1000000) + 100000`, `sector = 'Technology'`. -/
def mockStock (h : Int) (symbol : String) : Quote :=
  { symbol := symbol
    ltp := ((1000 + h % 2000 : Int) : ℚ)
    change := ((h % 200 - 100 : Int) : ℚ)
    changePercent := ((h % 200 - 100 : Int) : ℚ) / 10
    volume := (h % 1000000) + 100000
    sector := "Technology" }

/-- The quote built on the broker-success branch of `get_watchlist_stocks`
(src/main.py lines 256-264): broker fields, volume 0, sector 'Live Data'. -/
def liveQuote (s : String) (b : BrokerData) : Quote :=
  ⟨s, b.ltp, b.change, b.changePercent, 0, "Live Data"⟩

/-- `get_watchlist_stocks` (src/main.py lines 239-277): for each symbol of the
watchlist in `added_at` order, use the broker result when it is a (truthy,
non-empty) dict, else fall back to the mock quote. `broker` abstracts
`angel_api.get_ltp`; `hashF` is the process string hash. -/
def getWatchlistStocks (broker : String → Option BrokerData) (hashF : String → Int)
    (db : DB) (wid : Nat) : List Quote :=
  (listSymbols db wid).map (fun s =>
    match broker s with
    | some b => liveQuote s b
    | none => mockStock (hashF s) s)

/-- Environment configuration read in `AngelOneAPI.__init__` (src/main.py
lines 30-34): `os.getenv` yields `None` for an unset variable. -/
structure Config where
  apiKey : Option String
  apiSecret : Option String
  clientCode : Option String
  password : Option String
  totpSecret : Option String
deriving DecidableEq, Repr

/-- Python truthiness of an `os.getenv` result: `None` and the empty string
are falsy. -/
def truthy (o : Option String) : Bool := !(o.getD "").isEmpty

/-- State of the `AngelOneAPI` object. `accessTokenAttr = none` means the
`access_token` attribute was never assigned (reading it raises
`AttributeError`); `some tok` means the attribute holds `tok` (with `none`
for Python `None`). -/
structure AngelState where
  hasSmartApi : Bool
  accessTokenAttr : Option (Option String)
deriving DecidableEq, Repr

/-- `AngelOneAPI.__init__` (src/main.py lines 36-40): only when the API key
is truthy are `smart_api` and `access_token` initialised; otherwise
`smart_api` is `None` and `access_token` is never assigned. -/
def initAngel (cfg : Config) : AngelState :=
  if truthy cfg.apiKey then ⟨true, some none⟩ else ⟨false, none⟩

/-- Outcome of a call into the external SmartConnect SDK's `generateSession`:
either a raised exception, or a response dict with its `status` truthiness
and, when present, the `data.jwtToken` field. -/
inductive SessionResult where
  | exn
  | resp (status : Bool) (jwt : Option String)
deriving DecidableEq, Repr

/-- `generate_session` (src/main.py lines 42-65). `pyotp.TOTP(None).now()`
raises (caught, returning False), so a missing TOTP secret never yields a
session; the client code and password are passed to the SDK unchecked. `sdk`
is the oracle for `smart_api.generateSession`, given client code, password
and the TOTP code; `totpNow` is the oracle for `pyotp.TOTP(secret).now()`.
Returns the Python return value and the updated object state. -/
def generateSession (totpNow : String → String)
    (sdk : Option String → Option String → String → SessionResult)
    (cfg : Config) (st : AngelState) : Bool × AngelState :=
  if !st.hasSmartApi then (false, st)
  else
    match cfg.totpSecret with
    | none => (false, st)
    | some sec =>
      match sdk cfg.clientCode cfg.password (totpNow sec) with
      | SessionResult.exn => (false, st)
      | SessionResult.resp status jwt =>
        if status then
          match jwt with
          | none => (false, st)
          | some j => (true, { st with accessTokenAttr := some (some j) })
        else (false, st)

/-- Static symbol-to-token table in `get_ltp` (src/main.py lines 73-84). -/
def symbolTokens : List (String × String) :=
  [("RELIANCE", "2885"), ("TCS", "11536"), ("INFY", "1594"), ("HDFCBANK", "1333"),
   ("ITC", "424"), ("SBIN", "3045"), ("BHARTIARTL", "10604"), ("ASIANPAINT", "236"),
   ("MARUTI", "10999"), ("KOTAKBANK", "492")]

/-- `symbol_tokens.get(symbol, "26009")` (src/main.py line 86): the token for
a known symbol, and the default token 26009 otherwise. -/
def tokenFor (symbol : String) : String :=
  match symbolTokens.find? (fun p => p.1 == symbol) with
  | some p => p.2
  | none => "26009"

/-- Outcome of a call into the SDK's `ltpData`: a raised exception, or a
response dict with its `status` truthiness and the optional fields of
`data` the code reads (`ltp`, `change`, `pChange`). -/
inductive LtpResult where
  | exn
  | resp (status : Bool) (ltp : Option ℚ) (change : Option ℚ) (pChange : Option ℚ)
deriving DecidableEq, Repr

/-- `get_ltp` (src/main.py lines 67-100): return `None` unless `smart_api`
is set and `access_token` is truthy; then query `ltpData("NSE", symbol,
token)` with the mapped or default token. On a truthy `status`, read
`data.ltp` (a missing key raises, caught as `None`) and default the missing
`change`/`pChange` fields to 0; otherwise `None`. When `smart_api` is unset
the short-circuit `or` returns before `access_token` is read, so an
unassigned attribute is never touched here. -/
def getLtp (ltpOracle : String → String → String → LtpResult)
    (st : AngelState) (symbol : String) : Option BrokerData :=
  if !st.hasSmartApi then none
  else
    match st.accessTokenAttr with
    | none => none
    | some tokAttr =>
      if (tokAttr.getD "").isEmpty then none
      else
        match ltpOracle "NSE" symbol (tokenFor symbol) with
        | LtpResult.exn => none
        | LtpResult.resp status ltp change pChange =>
          if status then
            match ltp with
            | none => none
            | some l => some ⟨l, change.getD 0, pChange.getD 0⟩
          else none

/-- `health_check` (src/main.py lines 308-315): the `angel_one_status`
field. Reading `angel_api.access_token` raises `AttributeError` when the
attribute was never assigned; otherwise the status is "Connected" exactly
when the token is truthy. -/
def healthCheck (st : AngelState) : Except String String :=
  match st.accessTokenAttr with
  | none => Except.error "AttributeError"
  | some tokAttr =>
    Except.ok (if (tokAttr.getD "").isEmpty then "Mock Data" else "Connected")

/-- `startup_event` (src/main.py lines 151-155): run `init_db`, then attempt
a session only when the API key is truthy. Returns the seeded store and the
resulting broker state; it is a total function — startup never fails. -/
def startupEvent (totpNow : String → String)
    (sdk : Option String → Option String → String → SessionResult)
    (cfg : Config) (db : DB) : DB × AngelState :=
  let db1 := initDb db
  let st := initAngel cfg
  if truthy cfg.apiKey then (db1, (generateSession totpNow sdk cfg st).2)
  else (db1, st)

/-- The `/api/watchlists/{id}/stocks` handler with the concrete broker:
`get_watchlist_stocks` where the per-symbol lookup is `angel_api.get_ltp`. -/
def apiWatchlistStocks (ltpOracle : String → String → String → LtpResult)
    (st : AngelState) (hashF : String → Int) (db : DB) (wid : Nat) : List Quote :=
  getWatchlistStocks (getLtp ltpOracle st) hashF db wid

/-! Spec-side definitions, for comparison with the code. These follow the
words of the specification's Mock Pricer contract (spec §4.3), not the
source. -/

/-- Modelled from the spec: `base = 1000 + (h mod 2000)` (spec §4.3). -/
def specBase (h : Int) : Int := 1000 + h % 2000

/-- Modelled from the spec: `delta = (h mod 200) - 100` (spec §4.3). -/
def specDelta (h : Int) : Int := (h % 200) - 100

/-- Modelled from the spec: rounding to 2 decimal places, used by the spec's
`changePercent = round(delta / base * 100, 2 decimal places)`. Mathlib's
`round` rounds halves up where Python's `round` rounds halves to even; the
claims are settled away from ties, where the two agree. -/
def specRound2 (q : ℚ) : ℚ := ((round (q * 100) : ℤ) : ℚ) / 100

/-- Modelled from the spec: the Mock Pricer quote of spec §4.3 —
`ltp = base + delta`, `change = delta`,
`changePercent = round(delta / base * 100, 2)`,
`volume = 100000 + (h mod 1000000)`, `sector = "Technology"`. -/
def specMockQuote (h : Int) (symbol : String) : Quote :=
  { symbol := symbol
    ltp := ((specBase h + specDelta h : Int) : ℚ)
    change := ((specDelta h : Int) : ℚ)
    changePercent := specRound2 (((specDelta h : Int) : ℚ) / ((specBase h : Int) : ℚ) * 100)
    volume := 100000 + h % 1000000
    sector := "Technology" }

/-! Helper lemmas shared by several results. -/

/-- The membership pairs currently stored, with multiplicity. -/
def pairs (db : DB) : List (Nat × String) :=
  db.stocks.map (fun r => (r.watchlist_id, r.symbol))

/-- Uniqueness of `(watchlist_id, symbol)` among membership rows. -/
def pairsNodup (db : DB) : Prop := (pairs db).Nodup

instance (db : DB) : Decidable (pairsNodup db) := List.nodupDecidable _

theorem insertOrIgnoreWatchlist_stocks (db : DB) (id : Nat) (name : String) :
    (insertOrIgnoreWatchlist db id name).stocks = db.stocks := by
  unfold insertOrIgnoreWatchlist
  split <;> rfl

theorem seed_foldl_stocks : ∀ (l : List String) (d : DB),
    (List.foldl (fun d s => insertStockRow d 1 s) d l).stocks
      = d.stocks ++ l.map (fun s => StockRow.mk 1 s) := by
  intro l
  induction l with
  | nil => intro d; simp
  | cons a t ih =>
    intro d
    rw [List.foldl_cons, ih]
    simp [insertStockRow]

theorem initDb_stocks (db : DB) :
    (initDb db).stocks = db.stocks ++ defaultStocks.map (fun s => StockRow.mk 1 s) := by
  show (List.foldl (fun d s => insertStockRow d 1 s) _ defaultStocks).stocks = _
  rw [seed_foldl_stocks, insertOrIgnoreWatchlist_stocks, insertOrIgnoreWatchlist_stocks,
    insertOrIgnoreWatchlist_stocks]

theorem create_foldl_stocks (wid : Nat) : ∀ (l : List String) (d : DB),
    (List.foldl (fun d s => insertStockRow d wid (upper s)) d l).stocks
      = d.stocks ++ l.map (fun s => StockRow.mk wid (upper s)) := by
  intro l
  induction l with
  | nil => intro d; simp
  | cons a t ih =>
    intro d
    rw [List.foldl_cons, ih]
    simp [insertStockRow]

theorem createWatchlist_stocks (db : DB) (name : String) (symbols : List String) :
    (createWatchlist db name symbols).2.stocks
      = db.stocks ++ symbols.map (fun s => StockRow.mk (nextWatchlistId db) (upper s)) := by
  show (List.foldl (fun d s => insertStockRow d (nextWatchlistId db) (upper s)) _ symbols).stocks = _
  rw [create_foldl_stocks]

theorem filter_not_filter {α : Type} (p : α → Bool) (l : List α) :
    (l.filter (fun a => !(p a))).filter p = [] := by
  induction l with
  | nil => rfl
  | cons a t ih => by_cases h : p a <;> simp [h, ih]

/-! Claim C1. -/

/-- C1: the claim states that the fallback mock quote satisfies, with
`h = stable_hash(s)`, `base = 1000 + (h mod 2000)` and
`delta = (h mod 200) - 100`: `ltp = base + delta`, `change = delta`,
`changePercent = round(delta / base * 100, 2)`,
`volume = 100000 + (h mod 1000000)`, `sector = "Technology"`. This fails on
the code: at `h = 0` the fallback quote for "RELIANCE" has `ltp = 1000`
(the code sets `ltp` to `base` itself), whereas the claim requires
`base + delta = 900`. -/
theorem C1_counterexample :
    getWatchlistStocks (fun _ => none) (fun _ => 0)
        ⟨[⟨1, "My Portfolio"⟩], [⟨1, "RELIANCE"⟩]⟩ 1 = [mockStock 0 "RELIANCE"]
    ∧ (mockStock 0 "RELIANCE").ltp = 1000
    ∧ (specMockQuote 0 "RELIANCE").ltp = 900
    ∧ (mockStock 0 "RELIANCE").ltp ≠ (specMockQuote 0 "RELIANCE").ltp := by
  refine ⟨rfl, by norm_num [mockStock], ?_, ?_⟩
  · norm_num [specMockQuote, specBase, specDelta]
  · norm_num [mockStock, specMockQuote, specBase, specDelta]

/-- C1 (amended): with `h = hashF s` the fallback quote satisfies
`ltp = base` (not `base + delta`), `change = delta`,
`changePercent = delta / 10` (exact division, not
`round(delta / base * 100, 2)`), `volume = 100000 + (h mod 1000000)` and
`sector = "Technology"`; and it is exactly the quote the stocks endpoint
produces at the position of any symbol whose broker lookup fails. -/
theorem C1_amended (broker : String → Option BrokerData) (hashF : String → Int)
    (db : DB) (wid : Nat) (i : Nat) (s : String)
    (hs : (listSymbols db wid)[i]? = some s) (hb : broker s = none) :
    (getWatchlistStocks broker hashF db wid)[i]? = some (mockStock (hashF s) s)
    ∧ (mockStock (hashF s) s).ltp = ((specBase (hashF s) : Int) : ℚ)
    ∧ (mockStock (hashF s) s).change = ((specDelta (hashF s) : Int) : ℚ)
    ∧ (mockStock (hashF s) s).changePercent = ((specDelta (hashF s) : Int) : ℚ) / 10
    ∧ (mockStock (hashF s) s).volume = 100000 + hashF s % 1000000
    ∧ (mockStock (hashF s) s).sector = "Technology" := by
  refine ⟨?_, rfl, rfl, rfl, ?_, rfl⟩
  · simp [getWatchlistStocks, List.getElem?_map, hs, hb]
  · show hashF s % 1000000 + 100000 = 100000 + hashF s % 1000000
    omega

/-- Witness for C1 (amended) at a one-stock store with hash value 7. -/
theorem C1_amended_witness :
    (getWatchlistStocks (fun _ => none) (fun _ => 7)
        ⟨[⟨1, "My Portfolio"⟩], [⟨1, "TCS"⟩]⟩ 1)[0]? = some (mockStock 7 "TCS")
    ∧ (mockStock 7 "TCS").ltp = ((specBase 7 : Int) : ℚ)
    ∧ (mockStock 7 "TCS").change = ((specDelta 7 : Int) : ℚ)
    ∧ (mockStock 7 "TCS").changePercent = ((specDelta 7 : Int) : ℚ) / 10
    ∧ (mockStock 7 "TCS").volume = 100000 + (7 : Int) % 1000000
    ∧ (mockStock 7 "TCS").sector = "Technology" :=
  C1_amended (fun _ => none) (fun _ => 7) ⟨[⟨1, "My Portfolio"⟩], [⟨1, "TCS"⟩]⟩ 1 0 "TCS" rfl rfl

/-! Claim C2. -/

/-- C2: the claim states that running `init_db` twice yields exactly one
"My Portfolio" watchlist with exactly one membership row per default symbol.
The watchlist half holds (id 1 is a primary key, so the second
`INSERT OR IGNORE` is ignored), but `watchlist_stocks` has no UNIQUE
constraint on `(watchlist_id, symbol)`, so the second run re-inserts all
five default membership rows: after two runs watchlist 1 holds 10 membership
rows, two per default symbol, not 5. -/
theorem C2_seed_not_idempotent :
    ((initDb (initDb DB.empty)).watchlists.filter (fun w => w.name == "My Portfolio")).length = 1
    ∧ (initDb (initDb DB.empty)).watchlists.length = 3
    ∧ (initDb DB.empty).stocks.length = 5
    ∧ (initDb (initDb DB.empty)).stocks.length = 10
    ∧ countPair (initDb (initDb DB.empty)) 1 "RELIANCE" = 2 := by decide

/-! Claim C3. -/

theorem countPair_pos_iff (db : DB) (wid : Nat) (sym : String) :
    0 < countPair db wid sym ↔ (wid, sym) ∈ pairs db := by
  rw [countPair, ← List.countP_eq_length_filter, List.countP_pos_iff]
  constructor
  · rintro ⟨r, hr, hp⟩
    simp only [Bool.and_eq_true, beq_iff_eq] at hp
    exact List.mem_map.mpr ⟨r, hr, by rw [hp.1, hp.2]⟩
  · intro hmem
    obtain ⟨r, hr, hp⟩ := List.mem_map.mp hmem
    obtain ⟨h1, h2⟩ := Prod.mk.injEq _ _ _ _ ▸ hp
    exact ⟨r, hr, by simp [h1, h2]⟩

/-- C3: the claim states that `(watchlist_id, symbol)` is unique among
membership rows and preserved by every store operation, including
`create_watchlist` with an arbitrary initial symbol sequence. This fails:
`create_watchlist` inserts its initial symbols with no duplicate check, so
creating a watchlist with symbols ["TCS", "tcs"] over the seeded store
inserts the pair (4, "TCS") twice. -/
theorem C3_counterexample :
    ¬ pairsNodup (createWatchlist (initDb DB.empty) "Tech" ["TCS", "tcs"]).2 := by
  decide

/-- C3 (amended): the pair uniqueness invariant is preserved by `add_stock`
and `remove_stock` unconditionally; by `create_watchlist` when its initial
symbols are duplicate-free after uppercasing and no existing membership row
already carries the fresh watchlist id; and by seeding when no default
membership row of watchlist 1 is already present (i.e. the first run).
`create_watchlist` with a repeated symbol, and a second seeding run,
violate it. -/
theorem C3_amended (db : DB) (hdb : pairsNodup db) :
    (∀ wid s db', addStock db wid s = Except.ok db' → pairsNodup db')
    ∧ (∀ wid s, pairsNodup (removeStock db wid s))
    ∧ (∀ name symbols, (symbols.map upper).Nodup →
        (∀ r ∈ db.stocks, r.watchlist_id ≠ nextWatchlistId db) →
        pairsNodup (createWatchlist db name symbols).2)
    ∧ ((∀ s ∈ defaultStocks, (1, s) ∉ pairs db) → pairsNodup (initDb db)) := by
  refine ⟨?_, ?_, ?_, ?_⟩
  · intro wid s db' h
    unfold addStock at h
    split at h
    · exact absurd h (by simp)
    · rename_i hcount
      injection h with h
      subst h
      have hnot : (wid, upper s) ∉ pairs db := by
        intro hmem
        exact hcount ((countPair_pos_iff db wid (upper s)).mpr hmem)
      have : pairs (insertStockRow db wid (upper s)) = pairs db ++ [(wid, upper s)] := by
        simp [pairs, insertStockRow]
      unfold pairsNodup
      rw [this, List.nodup_append]
      refine ⟨hdb, List.nodup_singleton _, ?_⟩
      intro a ha hb
      rw [List.mem_singleton] at hb
      subst hb
      exact hnot ha
  · intro wid s
    have hsub : List.Sublist (pairs (removeStock db wid s)) (pairs db) :=
      List.Sublist.map _ (List.filter_sublist _)
    exact List.Nodup.sublist hsub hdb
  · intro name symbols hnd hfresh
    have hpairs : pairs (createWatchlist db name symbols).2
        = pairs db ++ (symbols.map upper).map (fun u => (nextWatchlistId db, u)) := by
      simp [pairs, createWatchlist_stocks, List.map_map, Function.comp]
    unfold pairsNodup
    rw [hpairs, List.nodup_append]
    refine ⟨hdb, List.Nodup.map (fun u v h => congrArg Prod.snd h) hnd, ?_⟩
    intro a ha ha'
    obtain ⟨r, hr, hra⟩ := List.mem_map.mp ha
    obtain ⟨u, _, hua⟩ := List.mem_map.mp ha'
    apply hfresh r hr
    have : a.1 = nextWatchlistId db := by rw [← hua]
    rw [← hra] at this
    exact this
  · intro hseed
    have hpairs : pairs (initDb db)
        = pairs db ++ defaultStocks.map (fun s => (1, s)) := by
      simp [pairs, initDb_stocks, List.map_map, Function.comp]
    unfold pairsNodup
    rw [hpairs, List.nodup_append]
    refine ⟨hdb, by decide, ?_⟩
    intro a ha ha'
    obtain ⟨u, hu, hua⟩ := List.mem_map.mp ha'
    exact hseed u hu (hua ▸ ha)

/-- Witness for C3 (amended): the invariant holds of the seeded store and is
preserved by a removal, by a creation with distinct fresh symbols, and by an
accepted `add_stock`. -/
theorem C3_amended_witness :
    pairsNodup (initDb DB.empty)
    ∧ pairsNodup (removeStock (initDb DB.empty) 1 "TCS")
    ∧ pairsNodup (createWatchlist (initDb DB.empty) "Tech" ["WIPRO", "HCL"]).2
    ∧ pairsNodup (insertStockRow (initDb DB.empty) 2 (upper "tcs")) :=
  ⟨by decide,
   (C3_amended (initDb DB.empty) (by decide)).2.1 1 "TCS",
   (C3_amended (initDb DB.empty) (by decide)).2.2.1 "Tech" ["WIPRO", "HCL"]
     (by decide) (by decide),
   (C3_amended (initDb DB.empty) (by decide)).1 2 "tcs"
     (insertStockRow (initDb DB.empty) 2 (upper "tcs")) rfl⟩

/-! Claim C4. -/

/-- C4: for every watchlist id, `get_watchlist_stocks` returns exactly one
quote per symbol of `list_symbols`, in the same order; a symbol whose broker
lookup succeeds yields the broker's ltp/change/changePercent with volume 0
and sector "Live Data", and a symbol whose lookup fails yields the mock
quote. -/
theorem C4_enrichment (broker : String → Option BrokerData) (hashF : String → Int)
    (db : DB) (wid : Nat) :
    (getWatchlistStocks broker hashF db wid).length = (listSymbols db wid).length
    ∧ ∀ (i : Nat) (s : String), (listSymbols db wid)[i]? = some s →
        (∀ b, broker s = some b →
          (getWatchlistStocks broker hashF db wid)[i]?
            = some ⟨s, b.ltp, b.change, b.changePercent, 0, "Live Data"⟩)
        ∧ (broker s = none →
          (getWatchlistStocks broker hashF db wid)[i]? = some (mockStock (hashF s) s)) := by
  refine ⟨by simp [getWatchlistStocks], ?_⟩
  intro i s hs
  constructor
  · intro b hb
    simp [getWatchlistStocks, List.getElem?_map, hs, hb, liveQuote]
  · intro hb
    simp [getWatchlistStocks, List.getElem?_map, hs, hb]

/-- Witness for C4 on a two-symbol watchlist whose broker knows only "TCS". -/
theorem C4_witness :
    (getWatchlistStocks (fun t => if t == "TCS" then some ⟨3850, 12, 1⟩ else none)
        (fun _ => 3) ⟨[⟨1, "My Portfolio"⟩], [⟨1, "TCS"⟩, ⟨1, "EMS"⟩]⟩ 1)[0]?
      = some ⟨"TCS", (3850 : ℚ), 12, 1, 0, "Live Data"⟩
    ∧ (getWatchlistStocks (fun t => if t == "TCS" then some ⟨3850, 12, 1⟩ else none)
        (fun _ => 3) ⟨[⟨1, "My Portfolio"⟩], [⟨1, "TCS"⟩, ⟨1, "EMS"⟩]⟩ 1)[1]?
      = some (mockStock 3 "EMS") :=
  ⟨((C4_enrichment (fun t => if t == "TCS" then some ⟨3850, 12, 1⟩ else none) (fun _ => 3)
      ⟨[⟨1, "My Portfolio"⟩], [⟨1, "TCS"⟩, ⟨1, "EMS"⟩]⟩ 1).2 0 "TCS" rfl).1 ⟨3850, 12, 1⟩ rfl,
   ((C4_enrichment (fun t => if t == "TCS" then some ⟨3850, 12, 1⟩ else none) (fun _ => 3)
      ⟨[⟨1, "My Portfolio"⟩], [⟨1, "TCS"⟩, ⟨1, "EMS"⟩]⟩ 1).2 1 "EMS" rfl).2 rfl⟩

/-! Claim C5. -/

/-- C5: adding the same symbol (after uppercasing) twice to the same
watchlist: the first `add_stock` succeeds and inserts the membership, the
second fails with the duplicate error surfaced as HTTP 400, and the
watchlist's membership count increases by exactly 1 over the two calls. -/
theorem C5_duplicate_add (db : DB) (wid : Nat) (s t : String)
    (hcase : upper t = upper s) (h0 : countPair db wid (upper s) = 0) :
    addStock db wid s = Except.ok (insertStockRow db wid (upper s))
    ∧ addStock (insertStockRow db wid (upper s)) wid t
        = Except.error "Stock already exists in watchlist"
    ∧ countPair (insertStockRow db wid (upper s)) wid (upper s)
        = countPair db wid (upper s) + 1
    ∧ (listSymbols (insertStockRow db wid (upper s)) wid).length
        = (listSymbols db wid).length + 1 := by
  have hcount : countPair (insertStockRow db wid (upper s)) wid (upper s)
      = countPair db wid (upper s) + 1 := by
    simp [countPair, insertStockRow, List.filter_append]
  refine ⟨by simp [addStock, h0], ?_, hcount, ?_⟩
  · have : countPair (insertStockRow db wid (upper s)) wid (upper t) > 0 := by
      rw [hcase, hcount, h0]
      exact Nat.zero_lt_one
    simp [addStock, this]
  · simp [listSymbols, insertStockRow, List.filter_append]

/-- Witness for C5: adding "wipro" then "WiPrO" to the seeded watchlist 1. -/
theorem C5_witness :
    addStock (initDb DB.empty) 1 "wipro"
      = Except.ok (insertStockRow (initDb DB.empty) 1 (upper "wipro"))
    ∧ addStock (insertStockRow (initDb DB.empty) 1 (upper "wipro")) 1 "WiPrO"
      = Except.error "Stock already exists in watchlist"
    ∧ countPair (insertStockRow (initDb DB.empty) 1 (upper "wipro")) 1 (upper "wipro")
      = countPair (initDb DB.empty) 1 (upper "wipro") + 1
    ∧ (listSymbols (insertStockRow (initDb DB.empty) 1 (upper "wipro")) 1).length
      = (listSymbols (initDb DB.empty) 1).length + 1 :=
  C5_duplicate_add (initDb DB.empty) 1 "wipro" "WiPrO" (by decide) (by decide)

/-! Claim C6. -/

/-- C6: `get_watchlists` returns one entry per watchlist row, ordered by id
ascending, and every entry's `stock_count` equals the number of membership
rows of that watchlist, i.e. the length of `list_symbols`. This holds of
every store state, hence after any sequence of add/remove operations, and a
memberless watchlist still appears, with count 0. -/
theorem C6_list_watchlists (db : DB) :
    List.Perm ((getWatchlists db).map (fun w => (w.id, w.name)))
      (db.watchlists.map (fun w => (w.id, w.name)))
    ∧ List.Sorted (· ≤ ·) ((getWatchlists db).map (fun w => w.id))
    ∧ ∀ w ∈ getWatchlists db, w.stock_count = (listSymbols db w.id).length := by
  refine ⟨?_, ?_, ?_⟩
  · have hperm := (List.perm_insertionSort rowLe db.watchlists).map
      (fun w : WatchlistRow => (w.id, w.name))
    simpa [getWatchlists, List.map_map, Function.comp] using hperm
  · have hsorted := List.sorted_insertionSort rowLe db.watchlists
    have hmap := List.Pairwise.map (fun w : WatchlistRow => w.id)
      (fun a b (h : rowLe a b) => h) hsorted
    simpa [getWatchlists, List.map_map, Function.comp] using hmap
  · intro w hw
    simp only [getWatchlists, List.mem_map] at hw
    obtain ⟨r, _, rfl⟩ := hw
    simp [listSymbols]

/-- Witness for C6 on the seeded store: ids come out ascending and the
"My Portfolio" entry counts its five membership rows. -/
theorem C6_witness :
    List.Sorted (· ≤ ·) ((getWatchlists (initDb DB.empty)).map (fun w => w.id))
    ∧ (⟨1, "My Portfolio", 5⟩ : WatchlistSummary).stock_count
        = (listSymbols (initDb DB.empty) 1).length :=
  ⟨(C6_list_watchlists (initDb DB.empty)).2.1,
   (C6_list_watchlists (initDb DB.empty)).2.2 ⟨1, "My Portfolio", 5⟩ (by decide)⟩

/-! Claim C7. -/

/-- C7: the claim states that for every symbol outside the static
symbol-to-token mapping the broker lookup always misses. This fails on the
code: `get_ltp` looks an unknown symbol up under the default token "26009"
(src/main.py line 86), so with a live session and a broker answering that
query, the lookup for the unmapped symbol "ZOMATO" returns data rather
than absent. -/
theorem C7_counterexample :
    getLtp (fun _ _ _ => LtpResult.resp true (some 123) none none)
        ⟨true, some (some "jwt")⟩ "ZOMATO" = some ⟨123, 0, 0⟩
    ∧ symbolTokens.all (fun p => p.1 != "ZOMATO") = true :=
  ⟨rfl, by decide⟩

/-- C7 (amended): an unknown symbol is not guaranteed to miss: `get_ltp`
queries it with the fixed default token "26009" and, with a live session,
returns whatever the broker reports for that token — data on a successful
response, absent only when there is no session or the call fails. -/
theorem C7_amended (oracle : String → String → String → LtpResult) (st : AngelState)
    (s tok : String) (hsm : st.hasSmartApi = true)
    (htok : st.accessTokenAttr = some (some tok)) (hne : tok.isEmpty = false)
    (hunk : symbolTokens.find? (fun p => p.1 == s) = none) :
    tokenFor s = "26009"
    ∧ ∀ (l : ℚ) (c p : Option ℚ),
        oracle "NSE" s "26009" = LtpResult.resp true (some l) c p →
        getLtp oracle st s = some ⟨l, c.getD 0, p.getD 0⟩ := by
  have htf : tokenFor s = "26009" := by rw [tokenFor, hunk]
  refine ⟨htf, ?_⟩
  intro l c p hor
  simp [getLtp, hsm, htok, hne, htf, hor]

/-- Witness for C7 (amended): "PAYTM" is unmapped, yet a live session and a
broker answering token 26009 yield data for it. -/
theorem C7_amended_witness :
    tokenFor "PAYTM" = "26009"
    ∧ getLtp
        (fun _ _ t => if t == "26009" then LtpResult.resp true (some 55) none none
          else LtpResult.exn)
        ⟨true, some (some "jwt")⟩ "PAYTM" = some ⟨55, 0, 0⟩ :=
  ⟨(C7_amended
      (fun _ _ t => if t == "26009" then LtpResult.resp true (some 55) none none
        else LtpResult.exn)
      ⟨true, some (some "jwt")⟩ "PAYTM" "jwt" rfl rfl rfl rfl).1,
   (C7_amended
      (fun _ _ t => if t == "26009" then LtpResult.resp true (some 55) none none
        else LtpResult.exn)
      ⟨true, some (some "jwt")⟩ "PAYTM" "jwt" rfl rfl rfl rfl).2 55 none none rfl⟩

/-! Claim C9. -/

/-- C9: the claim states that with any broker credential absent, startup
succeeds in mock-only mode, `/health` reports "Mock Data", and the stocks
endpoint serves one mock quote per symbol. Startup does succeed and the
stocks endpoint does serve the mock quotes, but with `ANGEL_API_KEY` unset
`AngelOneAPI.__init__` never assigns `self.access_token` (src/main.py lines
36-40), so `health_check` raises `AttributeError` (an HTTP 500) instead of
reporting "Mock Data". -/
theorem C9_health_attribute_error :
    (startupEvent (fun _ => "000000") (fun _ _ _ => SessionResult.exn)
        ⟨none, none, none, none, none⟩ DB.empty).1 = initDb DB.empty
    ∧ (startupEvent (fun _ => "000000") (fun _ _ _ => SessionResult.exn)
        ⟨none, none, none, none, none⟩ DB.empty).2 = ⟨false, none⟩
    ∧ healthCheck ⟨false, none⟩ = Except.error "AttributeError"
    ∧ apiWatchlistStocks (fun _ _ _ => LtpResult.exn) ⟨false, none⟩ (fun _ => 0)
        (initDb DB.empty) 1
      = defaultStocks.map (fun s => mockStock 0 s) :=
  ⟨rfl, rfl, rfl, rfl⟩

/-! Claim C8. -/

/-- C8: the mock quote is a pure function of the symbol's hash value alone:
two evaluations whose (per-run) hash functions agree on the symbol — in
particular two runs under the spec's required fixed cross-run-stable hash —
produce identical quotes. -/
theorem C8_mock_deterministic (h1 h2 : String → Int) (s : String)
    (hagree : h1 s = h2 s) :
    mockStock (h1 s) s = mockStock (h2 s) s := by
  rw [hagree]

/-- Witness for C8: two distinct hash functions agreeing on "TCS". -/
theorem C8_witness :
    mockStock ((fun _ : String => (5 : Int)) "TCS") "TCS"
      = mockStock ((fun t : String => if t == "TCS" then (5 : Int) else 99) "TCS") "TCS" :=
  C8_mock_deterministic (fun _ => 5) (fun t => if t == "TCS" then 5 else 99) "TCS" (by decide)

/-! Claim C10. -/

/-- C10: `remove_stock` uppercases its symbol argument before matching: the
rows surviving the deletion are exactly those not matching
`(watchlist_id, upper symbol)`, and afterwards no row of the watchlist with
the uppercased symbol remains — so a call with any case mix of a stored
symbol removes it. -/
theorem C10_remove_normalizes (db : DB) (wid : Nat) (s : String) :
    (∀ r : StockRow, r ∈ (removeStock db wid s).stocks
        ↔ r ∈ db.stocks ∧ ¬(r.watchlist_id = wid ∧ r.symbol = upper s))
    ∧ countPair (removeStock db wid s) wid (upper s) = 0 := by
  constructor
  · intro r
    simp [removeStock, List.mem_filter, not_and]
    tauto
  · simp only [countPair, removeStock]
    rw [filter_not_filter]
    rfl

/-- Witness for C10: removing "tcs" from a store holding (1, "TCS") and
(2, "TCS") deletes exactly the watchlist-1 row. -/
theorem C10_witness :
    ((⟨1, "TCS"⟩ : StockRow)
        ∈ (removeStock ⟨[⟨1, "My Portfolio"⟩], [⟨1, "TCS"⟩, ⟨2, "TCS"⟩]⟩ 1 "tcs").stocks
      ↔ (⟨1, "TCS"⟩ : StockRow) ∈ [(⟨1, "TCS"⟩ : StockRow), ⟨2, "TCS"⟩]
          ∧ ¬((1 : Nat) = 1 ∧ "TCS" = upper "tcs"))
    ∧ countPair (removeStock ⟨[⟨1, "My Portfolio"⟩], [⟨1, "TCS"⟩, ⟨2, "TCS"⟩]⟩ 1 "tcs")
        1 (upper "tcs") = 0 :=
  ⟨(C10_remove_normalizes ⟨[⟨1, "My Portfolio"⟩], [⟨1, "TCS"⟩, ⟨2, "TCS"⟩]⟩ 1 "tcs").1 ⟨1, "TCS"⟩,
   (C10_remove_normalizes ⟨[⟨1, "My Portfolio"⟩], [⟨1, "TCS"⟩, ⟨2, "TCS"⟩]⟩ 1 "tcs").2⟩

end MarketTerminal
